import Mathlib

/-!
Verification of the goodminton slot-discovery pipeline.

The repository has two variants of the pipeline:
* `src/finder.py` (`find_games`, the CLI search), and
* `src/api/index.py` (`find_courts_logic`, the chat-bot search).

This file shallowly embeds both variants.  Conventions:
* instants are UTC seconds since an arbitrary epoch, as `Int` (the Python
  code works with timezone-aware `datetime`s; comparing two aware datetimes
  compares the instants they denote);
* a timezone is a fixed offset in minutes (`pytz` resolves `Asia/Kolkata`,
  the only timezone the claims exercise, to the fixed offset UTC+330);
* time-of-day values are seconds in `[0, 86400)`;
* Python `float` coordinate values are embedded as `ℚ` where only equality
  and truthiness matter, and as `ℝ` inside the haversine computation;
* a record field that may be absent from the JSON payload is an `Option`;
  `none` for `startTime`/`endTime` also stands for an unparsable string
  (`dateutil.parser.isoparse` raising `ValueError`), which the code treats
  the same way as a missing key.
-/

namespace Goodminton

/-! ### Time model -/

def secondsPerDay : Int := 86400

/-- Wall-clock seconds of instant `t` in the fixed-offset timezone `off`
(minutes east of UTC): `datetime.astimezone(local_tz)`. -/
def localSec (off t : Int) : Int := t + off * 60

/-- Local time-of-day in seconds, `start_time_local.time()` at second
granularity. -/
def localTimeOfDay (off t : Int) : Int := localSec off t % secondsPerDay

/-- Local calendar day index of instant `t` (days since the epoch's local
midnight), `start_time_local.date()`. -/
def localDay (off t : Int) : Int := localSec off t / secondsPerDay

/-- The instant denoted by `local_tz.localize(datetime.combine(day, desired_start))`:
local day `day` at time-of-day `ds` in offset `off`. -/
def windowStartInstant (off day ds : Int) : Int := day * secondsPerDay + ds - off * 60

/-- src/api/index.py line 219: the chat-bot inclusion test
`desired_start <= start_time_local.time() <= desired_end`. -/
def indexTimeOk (off ds de t : Int) : Bool :=
  decide (ds ≤ localTimeOfDay off t) && decide (localTimeOfDay off t ≤ de)

/-- src/finder.py lines 170-171: the CLI inclusion test
`(start_time_local >= start_datetime_local) and (start_time_local.time() <= desired_end)`;
the lower bound compares zoned instants, the upper bound local time-of-day. -/
def finderTimeOk (off ds de day t : Int) : Bool :=
  decide (windowStartInstant off day ds ≤ t) && decide (localTimeOfDay off t ≤ de)

/-! ### Raw activity records -/

/-- One record of the listing API's activity list, with exactly the fields the
two pipelines read.  `venueIdAlt` is the alternate misspelled `"venueId d"`
field probed by the chat-bot.  `startTimeRaw`/`endTimeRaw` are the raw ISO
strings (the CLI grouping key uses them verbatim); `startTime`/`endTime` are
the instants `dateutil.parser.isoparse` yields from them. -/
structure RawActivity where
  id : Option String := none
  venueId : Option String := none
  venueIdAlt : Option String := none
  venueName : Option String := none
  startTime : Option Int := none
  startTimeRaw : Option String := none
  endTime : Option Int := none
  endTimeRaw : Option String := none
  lat : Option ℚ := none
  lng : Option ℚ := none
  type : Option Int := none
  joineeCount : Option Int := none
  location : Option String := none
deriving DecidableEq

/-- Python truthiness of an optional numeric field: `None`, `0` and `0.0` are
falsy, every other number is truthy. -/
def truthyNum : Option ℚ → Bool
  | none => false
  | some q => decide (q ≠ 0)

/-- Python truthiness of an optional string field: `None` and `""` are falsy. -/
def truthyStr : Option String → Bool
  | none => false
  | some s => decide (s ≠ "")

/-- src/api/index.py line 207: `if not activity.get("lat") or not activity.get("lng")`. -/
def indexCoordOk (r : RawActivity) : Bool := truthyNum r.lat && truthyNum r.lng

/-- src/api/index.py line 211:
`if activity.get("type") != 0 or activity.get("joineeCount", 0) > 1`. -/
def indexTypeJoineeOk (r : RawActivity) : Bool :=
  decide (r.type = some 0) && decide (r.joineeCount.getD 0 ≤ 1)

/-- Python `a or b` on two optional strings (first operand if truthy,
otherwise the second). -/
def pyOrStr (a b : Option String) : Option String := if truthyStr a then a else b

/-- src/api/index.py line 226: `activity.get("venueId") or activity.get("venueId d")`. -/
def indexVenueId (r : RawActivity) : Option String := pyOrStr r.venueId r.venueIdAlt

/-- The chat-bot's per-record filter chain (src/api/index.py lines 203-229):
`some k` when the record survives every `continue` and `k` is its grouping
key `(venue_id, start_time_local.strftime(sHHcMM))`; `none` when any guard
skips it (missing/falsy coordinates; type other than `0`; `joineeCount > 1`;
missing/unparsable `startTime`; local start time-of-day outside the window;
unresolvable venue id). -/
def indexKeyOf (off ds de : Int) (r : RawActivity) : Option (String × Int) :=
  if indexCoordOk r && indexTypeJoineeOk r then
    match r.startTime with
    | none => none
    | some t =>
      if indexTimeOk off ds de t && truthyStr (indexVenueId r) then
        some ((indexVenueId r).getD "", localTimeOfDay off t / 60)
      else none
  else none

/-- The CLI's per-record filter chain (src/finder.py lines 154-187): `some k`
when the record survives (both time strings parse and the time test passes)
and `k` is its grouping key `(venue_id, start_time_str, end_time_str)` built
from `activity.get` on the raw fields.  No coordinate, type, joinee-count or
venue-id guard exists in this variant. -/
def finderKeyOf (off ds de day : Int) (r : RawActivity) :
    Option (Option String × Option String × Option String) :=
  match r.startTime, r.endTime with
  | some t, some _ =>
    if finderTimeOk off ds de day t then some (r.venueId, r.startTimeRaw, r.endTimeRaw)
    else none
  | _, _ => none

/-! ### Geographic distance and nearest-station search

Both variants define `calculate_haversine_distance` and `find_nearest_metro`
with the same bodies (src/finder.py lines 39-71, src/api/index.py lines
141-159; the CLI passes the station list explicitly, the chat-bot reads a
read-only module global).  They are embedded once, over `ℝ`, taking the
station list as a parameter. -/

/-- One entry of `metro_stations.json`: `{name, lat, lng}`. -/
structure Station where
  name : String
  lat : ℝ
  lng : ℝ

/-- `math.radians`. -/
noncomputable def radiansOf (x : ℝ) : ℝ := x * Real.pi / 180

/-- `math.atan2 y x`: the angle of the point `(x, y)`, by the usual
quadrant case split. -/
noncomputable def atan2 (y x : ℝ) : ℝ :=
  if 0 < x then Real.arctan (y / x)
  else if x < 0 then
    (if 0 ≤ y then Real.arctan (y / x) + Real.pi else Real.arctan (y / x) - Real.pi)
  else if 0 < y then Real.pi / 2
  else if y < 0 then -(Real.pi / 2)
  else 0

/-- src/finder.py lines 39-55 and src/api/index.py lines 141-148: haversine
great-circle distance in km with Earth radius 6371.0. -/
noncomputable def calculate_haversine_distance (lat1 lon1 lat2 lon2 : ℝ) : ℝ :=
  let R : ℝ := 6371
  let lat1r := radiansOf lat1
  let lon1r := radiansOf lon1
  let lat2r := radiansOf lat2
  let lon2r := radiansOf lon2
  let dlon := lon2r - lon1r
  let dlat := lat2r - lat1r
  let a := Real.sin (dlat / 2) ^ 2 +
    Real.cos lat1r * Real.cos lat2r * Real.sin (dlon / 2) ^ 2
  let c := 2 * atan2 (Real.sqrt a) (Real.sqrt (1 - a))
  R * c

/-- Distance from the venue point to one station. -/
noncomputable def stationDist (vlat vlng : ℝ) (st : Station) : ℝ :=
  calculate_haversine_distance vlat vlng st.lat st.lng

/-- The scan loop of `find_nearest_metro`: the accumulator carries
`(nearest_station, min_distance)`, distances live in `EReal` because the
running minimum starts at `float('inf')`; an update happens only on a strict
improvement `dist < min_distance`. -/
noncomputable def nearestLoop (vlat vlng : ℝ) :
    List Station → Option String × EReal → Option String × EReal
  | [], acc => acc
  | st :: rest, acc =>
    if (stationDist vlat vlng st : EReal) < acc.2 then
      nearestLoop vlat vlng rest (some st.name, (stationDist vlat vlng st : EReal))
    else nearestLoop vlat vlng rest acc

/-- src/finder.py lines 57-71 and src/api/index.py lines 150-159:
`(None, float('inf'))` on an empty station list, otherwise the linear scan. -/
noncomputable def find_nearest_metro (vlat vlng : ℝ) (stations : List Station) :
    Option String × EReal :=
  if stations.isEmpty then (none, ⊤)
  else nearestLoop vlat vlng stations (none, ⊤)

/-- Minimum of the coerced station distances, `⊤` on the empty list. -/
noncomputable def minStationDist (vlat vlng : ℝ) (stations : List Station) : EReal :=
  stations.foldr (fun st acc => min (stationDist vlat vlng st : EReal) acc) ⊤

/-! ### Association-list machinery for the `grouped_venues` dict

Python dicts preserve insertion order; the model is an association list to
which new keys are appended at the end. -/

/-- `k in grouped_venues` / `grouped_venues[k]` read access. -/
def lookupKey {κ β : Type} [DecidableEq κ] (k : κ) : List (κ × β) → Option β
  | [] => none
  | (k', v) :: rest => if k' = k then some v else lookupKey k rest

/-- Apply `f` to the value at key `k`, leaving everything else unchanged
(`grouped_venues[k]["court_count"] += 1` when `f` increments the count). -/
def updateKey {κ β : Type} [DecidableEq κ] (k : κ) (f : β → β) : List (κ × β) → List (κ × β)
  | [] => []
  | (k', v) :: rest =>
    if k' = k then (k', f v) :: updateKey k f rest else (k', v) :: updateKey k f rest

/-! ### Time-slot rendering helpers -/

/-- Two-digit zero padding. -/
def pad2 (n : Nat) : String := if n < 10 then "0" ++ toString n else toString n

/-- `strftime` field `%I`: 12-hour clock hour in `01..12`. -/
def hour12 (h : Nat) : Nat := if h % 12 = 0 then 12 else h % 12

/-- `strftime` of a time-of-day (seconds) with format `%I:%M %p`. -/
def fmtTime12 (todSec : Int) : String :=
  let m := (todSec / 60).toNat
  pad2 (hour12 (m / 60)) ++ ":" ++ pad2 (m % 60) ++ " " ++
    (if m / 60 < 12 then "AM" else "PM")

/-! ### Venue slots and aggregation -/

/-- The chat-bot's aggregate value (src/api/index.py lines 239-245).  The
Google-maps link of the source is determined by the venue coordinates; the
model stores the coordinates themselves (`maps_lat`, `maps_lng`) instead of
the interpolated URL string. -/
structure IndexVenueSlot where
  venue_name : String
  start_time : String
  location : String
  maps_lat : ℚ
  maps_lng : ℚ
  venue_id : String
  nearest_metro : Option String
  distance_to_metro : EReal
  court_count : Nat

/-- The CLI's aggregate value (src/finder.py lines 194-202). -/
structure FinderVenueSlot where
  venue_name : String
  start : String
  endStr : String
  venue_id : Option String
  nearest_metro : Option String
  distance_to_metro : EReal
  court_count : Nat

/-- Materialize the chat-bot's fresh dict entry for a record (court count `0`,
incremented by the shared `+= 1` right after creation).  Only called when the
guards of `indexKeyOf` passed and `venueName` is present, so the `getD`
defaults are never the values actually read. -/
noncomputable def mkIndexSlot (stations : List Station) (off : Int) (r : RawActivity) :
    IndexVenueSlot :=
  let vlat : ℚ := r.lat.getD 0
  let vlng : ℚ := r.lng.getD 0
  let nm := find_nearest_metro (vlat : ℝ) (vlng : ℝ) stations
  { venue_name := r.venueName.getD ""
    start_time := fmtTime12 (localTimeOfDay off (r.startTime.getD 0))
    location := r.location.getD "N/A"
    maps_lat := vlat
    maps_lng := vlng
    venue_id := (indexVenueId r).getD ""
    nearest_metro := nm.1
    distance_to_metro := nm.2
    court_count := 0 }

/-- Materialize the CLI's fresh dict entry for a record (court count `0`).
The source calls `find_nearest_metro` on `activity.get("lat")` without a
presence check (a missing coordinate would raise inside the big `try` and
abort the whole search); the model is used only on records carrying
coordinates and reads them through `getD`. -/
noncomputable def mkFinderSlot (stations : List Station) (off : Int) (r : RawActivity) :
    FinderVenueSlot :=
  let nm := find_nearest_metro ((r.lat.getD 0 : ℚ) : ℝ) ((r.lng.getD 0 : ℚ) : ℝ) stations
  { venue_name := r.venueName.getD "N/A"
    start := fmtTime12 (localTimeOfDay off (r.startTime.getD 0))
    endStr := fmtTime12 (localTimeOfDay off (r.endTime.getD 0))
    venue_id := r.venueId
    nearest_metro := nm.1
    distance_to_metro := nm.2
    court_count := 0 }

/-- Bump the court count of a chat-bot slot. -/
def bumpIndexCount (s : IndexVenueSlot) : IndexVenueSlot :=
  { s with court_count := s.court_count + 1 }

/-- Bump the court count of a CLI slot. -/
def bumpFinderCount (s : FinderVenueSlot) : FinderVenueSlot :=
  { s with court_count := s.court_count + 1 }

/-- One iteration of the chat-bot's aggregation loop (src/api/index.py lines
202-249): skip the record unless `indexKeyOf` yields a key; create the entry
on a fresh key — unless `venueName` is absent, in which case the `KeyError`
from `activity["venueName"]` lands in the per-record `except` and skips the
record before the count increment — then increment the count. -/
noncomputable def indexStep (stations : List Station) (off ds de : Int)
    (acc : List ((String × Int) × IndexVenueSlot)) (r : RawActivity) :
    List ((String × Int) × IndexVenueSlot) :=
  match indexKeyOf off ds de r with
  | none => acc
  | some k =>
    match lookupKey k acc with
    | some _ => updateKey k bumpIndexCount acc
    | none =>
      match r.venueName with
      | none => acc
      | some _ => updateKey k bumpIndexCount (acc ++ [(k, mkIndexSlot stations off r)])

/-- One iteration of the CLI's aggregation loop (src/finder.py lines 154-204):
skip unless `finderKeyOf` yields a key, create the entry on a fresh key (no
`venueName` guard: every field is read through `.get` with a default), then
increment the count. -/
noncomputable def finderStep (stations : List Station) (off ds de day : Int)
    (acc : List ((Option String × Option String × Option String) × FinderVenueSlot))
    (r : RawActivity) :
    List ((Option String × Option String × Option String) × FinderVenueSlot) :=
  match finderKeyOf off ds de day r with
  | none => acc
  | some k =>
    match lookupKey k acc with
    | some _ => updateKey k bumpFinderCount acc
    | none => updateKey k bumpFinderCount (acc ++ [(k, mkFinderSlot stations off r)])

/-- The chat-bot's whole aggregation: fold the loop body over the activity
list starting from the empty dict. -/
noncomputable def indexAgg (stations : List Station) (off ds de : Int)
    (rs : List RawActivity) : List ((String × Int) × IndexVenueSlot) :=
  rs.foldl (indexStep stations off ds de) []

/-- The CLI's whole aggregation. -/
noncomputable def finderAgg (stations : List Station) (off ds de day : Int)
    (rs : List RawActivity) :
    List ((Option String × Option String × Option String) × FinderVenueSlot) :=
  rs.foldl (finderStep stations off ds de day) []

/-! ### Ranking

Python's `sorted`/`list.sort` is a stable sort on the key
`x['distance_to_metro']`; the model is `List.mergeSort`, which carries the
same stability guarantee. -/

/-- The sort key comparison for chat-bot slots. -/
noncomputable def indexLe (a b : IndexVenueSlot) : Bool :=
  decide (a.distance_to_metro ≤ b.distance_to_metro)

/-- The sort key comparison for CLI slots. -/
noncomputable def finderLe (a b : FinderVenueSlot) : Bool :=
  decide (a.distance_to_metro ≤ b.distance_to_metro)

/-- src/api/index.py lines 252 and 258: `sorted(...)` by metro distance, then
`matching_venues[:10]` when rendering. -/
noncomputable def indexRank (slots : List IndexVenueSlot) : List IndexVenueSlot :=
  (slots.mergeSort indexLe).take 10

/-- src/finder.py lines 210 and 223-231: `.sort(...)` by metro distance; every
sorted slot becomes a table row — there is no truncation in this variant. -/
noncomputable def finderRank (slots : List FinderVenueSlot) : List FinderVenueSlot :=
  slots.mergeSort finderLe

/-! ### Result messages -/

/-- src/api/index.py line 255: the chat-bot's empty-result sentinel. -/
def indexNoResultsMsg (dateStr startStr endStr : String) : String :=
  "No courts found for " ++ dateStr ++ " between " ++ startStr ++ " and " ++ endStr ++ "."

/-- src/finder.py line 247: the CLI's empty-result sentinel. -/
def finderNoResultsMsg : String := "No courts found matching your criteria"

/-- src/api/index.py lines 254-265: the empty/non-empty branch of the final
message.  The non-empty branch interpolates floating-point distances
(`%.2f`), so its rendering is a parameter of the model. -/
def indexResultMessage (dateStr startStr endStr : String)
    (render : List IndexVenueSlot → String) (ranked : List IndexVenueSlot) : String :=
  if ranked.isEmpty then indexNoResultsMsg dateStr startStr endStr else render ranked

/-- src/finder.py lines 213-247: the CLI prints a table when venues matched
and the fixed sentinel otherwise; the table rendering is a parameter of the
model for the same reason. -/
def finderResultMessage (render : List FinderVenueSlot → String)
    (ranked : List FinderVenueSlot) : String :=
  if ranked.isEmpty then finderNoResultsMsg else render ranked

/-! ### Response-envelope interpretation -/

/-- A JSON value, as `response.json()` produces it. -/
inductive Js where
  | null
  | bool (b : Bool)
  | num (q : ℚ)
  | str (s : String)
  | arr (elems : List Js)
  | obj (fields : List (String × Js))

/-- Python `x == 1` for an optional JSON value (`True == 1` holds in Python). -/
def isNumOne : Option Js → Bool
  | some (.num q) => decide (q = 1)
  | some (.bool b) => b
  | _ => false

/-- src/api/index.py line 196: `data.get("data", {}).get("activities", [])`.
The chat-bot probes only the nested shape.  A non-dict response or a non-dict
`"data"` value raises `AttributeError` (uncaught by the surrounding
`except (RequestException, JSONDecodeError)`); an `"activities"` value that
is not a list is folded into the error case as well (a number raises
`TypeError` when iterated; a string or dict iterates over scalars that the
per-record `isinstance(activity, dict)` guard then drops, yielding no
records). -/
def indexExtract (data : Js) : Except String (List Js) :=
  match data with
  | .obj fs =>
    match (lookupKey "data" fs).getD (.obj []) with
    | .obj fs2 =>
      match (lookupKey "activities" fs2).getD (.arr []) with
      | .arr l => .ok l
      | _ => .error "activities value is not a list"
    | _ => .error "AttributeError: data value is not a dict"
  | _ => .error "AttributeError: response is not a dict"

/-- src/finder.py lines 136-140: the CLI requires `requestStatus == 1` and the
presence of a top-level `"data"` key, aborting the search with an error
message otherwise, and then iterates `data["data"]`.  It probes only the
top-level shape. -/
def finderExtract (data : Js) : Except String (List Js) :=
  match data with
  | .obj fs =>
    if !(isNumOne (lookupKey "requestStatus" fs)) || (lookupKey "data" fs).isNone then
      .error "Failed to get valid response from Playo API"
    else
      match lookupKey "data" fs with
      | some (.arr l) => .ok l
      | _ => .error "data value is not a list"
  | _ => .error "AttributeError: response is not a dict"

/-! ### The external date token -/

/-- A civil calendar date. -/
structure Date where
  year : Nat
  month : Nat
  day : Nat
deriving DecidableEq

/-- Gregorian leap year. -/
def isLeap (y : Nat) : Bool := (y % 4 = 0 && y % 100 ≠ 0) || y % 400 = 0

/-- Days in a month. -/
def daysInMonth (y m : Nat) : Nat :=
  if m = 2 then (if isLeap y then 29 else 28)
  else if m = 4 ∨ m = 6 ∨ m = 9 ∨ m = 11 then 30
  else 31

/-- The next calendar day. -/
def nextDay (d : Date) : Date :=
  if d.day < daysInMonth d.year d.month then { d with day := d.day + 1 }
  else if d.month < 12 then { year := d.year, month := d.month + 1, day := 1 }
  else { year := d.year + 1, month := 1, day := 1 }

/-- The previous calendar day. -/
def prevDay (d : Date) : Date :=
  if 1 < d.day then { d with day := d.day - 1 }
  else if 1 < d.month then
    { year := d.year, month := d.month - 1, day := daysInMonth d.year (d.month - 1) }
  else { year := d.year - 1, month := 12, day := 31 }

/-- `astimezone(pytz.utc)` of the zoned datetime at date `d`, time-of-day
`tod` seconds, in the fixed offset `off` minutes: shift the time-of-day and
roll the date by at most one day (timezone offsets are under 24 hours). -/
def toUTC (off : Int) (d : Date) (tod : Int) : Date × Int :=
  let u := tod - off * 60
  if u < 0 then (prevDay d, u + secondsPerDay)
  else if secondsPerDay ≤ u then (nextDay d, u - secondsPerDay)
  else (d, u)

/-- Four-digit zero padding for the year field. -/
def pad4 (n : Nat) : String :=
  if n < 10 then "000" ++ toString n
  else if n < 100 then "00" ++ toString n
  else if n < 1000 then "0" ++ toString n
  else toString n

/-- `strftime` with format string year-month-dayTHH:MM:SS.ffffffZ for a date
and a time-of-day in whole seconds (the microsecond field of a `datetime`
built from an HH:MM wall time is zero, so `%f` renders `000000`).  The `Z` is
a literal in the format string, not derived from the datetime's zone. -/
def isoZ (d : Date) (tod : Int) : String :=
  let s := tod.toNat
  pad4 d.year ++ "-" ++ pad2 d.month ++ "-" ++ pad2 d.day ++ "T" ++
    pad2 (s / 3600) ++ ":" ++ pad2 (s / 60 % 60) ++ ":" ++ pad2 (s % 60) ++ ".000000Z"

/-- src/api/index.py lines 175-178: the chat-bot's date token — the window's
local start converted to UTC, then rendered with the microsecond-`Z` format. -/
def indexDateToken (off : Int) (d : Date) (ds : Int) : String :=
  let u := toUTC off d ds
  isoZ u.1 u.2

/-- src/finder.py lines 93-95: the CLI's date token —
`datetime.datetime.now(local_tz).strftime(...)`: the *current* local wall
time rendered with the same format, with no conversion to UTC before the
literal `Z` is appended.  `nowD`/`nowTod` are the local calendar date and
local time-of-day of the moment the search runs. -/
def finderDateToken (nowD : Date) (nowTod : Int) : String := isoZ nowD nowTod

/-! ### Concrete test fixtures

The search window used below is the default one of the sources: timezone
offset 330 minutes (`Asia/Kolkata`), desired window 19:00-20:00, i.e.
`ds = 68400`, `de = 72000` seconds, on local day `0` of the epoch. -/

/-- An otherwise-valid record (bookable type `0`, in-window start) whose
`joineeCount` is `2`.  Its start instant `48600` has local wall time
19:00:00 on local day 0. -/
def recJ2 : RawActivity :=
  { venueId := some "V1"
    venueName := some "Smash Arena"
    startTime := some 48600
    startTimeRaw := some "1970-01-01T13:30:00+00:00"
    endTime := some 52200
    endTimeRaw := some "1970-01-01T14:30:00+00:00"
    lat := some 13
    lng := some 77
    type := some 0
    joineeCount := some 2 }

/-- The same record with `joineeCount = 0`. -/
def recJ0 : RawActivity := { recJ2 with joineeCount := some 0 }

/-- The same record (with `joineeCount = 0`) but latitude numerically `0`. -/
def recLat0 : RawActivity := { recJ0 with lat := some 0 }

/-- C1.  Corrected: the inclusion test is *not* uniform across the two
variants.  The chat-bot admits a record exactly when its local start
time-of-day lies in `[desiredStart, desiredEnd]`, inclusive on both ends;
the CLI admits exactly when the zoned start instant is at or after the
window's start instant on the search day and the local time-of-day is at
most `desiredEnd`.  The two tests agree on records whose local calendar day
is the search day and differ otherwise. -/
theorem C1_time_tests (off ds de day t : Int) :
    (indexTimeOk off ds de t = true ↔
      ds ≤ localTimeOfDay off t ∧ localTimeOfDay off t ≤ de) ∧
    (finderTimeOk off ds de day t = true ↔
      windowStartInstant off day ds ≤ t ∧ localTimeOfDay off t ≤ de) ∧
    (localDay off t = day → finderTimeOk off ds de day t = indexTimeOk off ds de t) := by
  refine ⟨by simp [indexTimeOk], by simp [finderTimeOk], fun hday => ?_⟩
  have h : windowStartInstant off day ds ≤ t ↔ ds ≤ localTimeOfDay off t := by
    simp only [localDay, localSec, secondsPerDay] at hday
    simp only [windowStartInstant, localTimeOfDay, localSec, secondsPerDay]
    omega
  simp only [finderTimeOk, indexTimeOk]
  rw [decide_eq_decide.mpr h]

/-- Witness for `C1_time_tests`: instant `50000` lies on local day `0`
(local wall time 19:23:20), where the two tests agree. -/
theorem C1_time_tests_witness :
    finderTimeOk 330 68400 72000 0 50000 = indexTimeOk 330 68400 72000 50000 :=
  (C1_time_tests 330 68400 72000 0 50000).2.2 (by decide)

/-- C1 counterexample: the instant `131400` has local wall time 18:00:00 on
local day `1`; with window 19:00-20:00 on day `0` the CLI test admits it
(its instant is after the day-0 window start and 18:00 is at most 20:00),
yet its local time-of-day 18:00 is *below* `desiredStart`, so the claimed
uniform interval test would reject it. -/
theorem C1_counterexample :
    finderTimeOk 330 68400 72000 0 131400 = true ∧
    ¬ (68400 ≤ localTimeOfDay 330 131400 ∧ localTimeOfDay 330 131400 ≤ 72000) := by
  decide

/-- C2.  Corrected: only the chat-bot applies the type/joinee-count filter.
In the chat-bot, a record passes that guard exactly when its type is the
bookable code `0` and its `joineeCount` (defaulting to `0`) is at most `1`;
any record reaching the key stage passed the guard; the concrete
`joineeCount = 2` record is rejected and its `joineeCount = 0` twin is
accepted.  The CLI applies no such filter: its per-record decision is
unchanged under any rewriting of the `type` and `joineeCount` fields. -/
theorem C2_type_joinee_filter (off ds de day : Int) (r : RawActivity) :
    (indexTypeJoineeOk r = true ↔ r.type = some 0 ∧ r.joineeCount.getD 0 ≤ 1) ∧
    ((indexKeyOf off ds de r).isSome → indexTypeJoineeOk r = true) ∧
    (finderKeyOf off ds de day r =
      finderKeyOf off ds de day { r with type := some 0, joineeCount := some 0 }) ∧
    indexKeyOf 330 68400 72000 recJ2 = none ∧
    (indexKeyOf 330 68400 72000 recJ0).isSome = true := by
  refine ⟨by simp [indexTypeJoineeOk], ?_, rfl, by decide, by decide⟩
  intro h
  cases hb : indexTypeJoineeOk r
  · have hc : (indexCoordOk r && indexTypeJoineeOk r) = false := by simp [hb]
    simp [indexKeyOf, hc] at h
  · rfl

/-- Witness for `C2_type_joinee_filter`: the accepted `joineeCount = 0`
record indeed passed the type/joinee guard. -/
theorem C2_type_joinee_filter_witness : indexTypeJoineeOk recJ0 = true :=
  (C2_type_joinee_filter 330 68400 72000 0 recJ0).2.1 (by decide)

/-- C2 counterexample: the CLI accepts the otherwise-valid record with
`joineeCount = 2` (its per-record filter yields a grouping key), which the
claim says every variant rejects; the chat-bot does reject it. -/
theorem C2_counterexample :
    (finderKeyOf 330 68400 72000 0 recJ2).isSome = true ∧
    indexKeyOf 330 68400 72000 recJ2 = none := by
  decide

/-- C10.  Confirmed: the chat-bot's coordinate-presence guard tests Python
falsiness, so a record whose `lat` (or `lng`) is numerically `0` fails the
guard exactly as when the field is absent, and is rejected by the pipeline. -/
theorem C10_zero_coordinates (off ds de : Int) (r : RawActivity) :
    ((r.lat = some 0 ∨ r.lng = some 0) →
      indexCoordOk r = false ∧ indexKeyOf off ds de r = none) ∧
    (r.lat = some 0 → indexCoordOk r = indexCoordOk { r with lat := none }) ∧
    (r.lng = some 0 → indexCoordOk r = indexCoordOk { r with lng := none }) := by
  refine ⟨fun h => ?_, fun h => ?_, fun h => ?_⟩
  · have hco : indexCoordOk r = false := by
      rcases h with h | h <;> simp [indexCoordOk, h, truthyNum]
    exact ⟨hco, by simp [indexKeyOf, hco]⟩
  · simp [indexCoordOk, h, truthyNum]
  · simp [indexCoordOk, h, truthyNum]

/-- Witness for `C10_zero_coordinates`: the concrete record with `lat = 0`
fails the coordinate guard and is rejected. -/
theorem C10_zero_coordinates_witness :
    indexCoordOk recLat0 = false ∧ indexKeyOf 330 68400 72000 recLat0 = none :=
  (C10_zero_coordinates 330 68400 72000 recLat0).1 (Or.inl rfl)

/-- C5.  Corrected: only the chat-bot sends the window's start instant
converted to UTC.  For date 2024-07-03, start 22:00 (`79200` seconds),
offset 330 minutes, its token is `2024-07-03T16:30:00.000000Z`, and in
general (when no day rollover happens) it renders the date with the
time-of-day shifted back by 5 h 30 min.  The CLI instead renders the current
*local* wall time and appends a literal `Z` without converting to UTC: in
the same scenario its token is `2024-07-03T22:00:00.000000Z`. -/
theorem C5_date_token (d : Date) (tod : Int) :
    indexDateToken 330 ⟨2024, 7, 3⟩ 79200 = "2024-07-03T16:30:00.000000Z" ∧
    finderDateToken ⟨2024, 7, 3⟩ 79200 = "2024-07-03T22:00:00.000000Z" ∧
    (0 ≤ tod - 19800 → tod - 19800 < 86400 →
      indexDateToken 330 d tod = isoZ d (tod - 19800)) := by
  refine ⟨by decide, by decide, fun h1 h2 => ?_⟩
  have h : toUTC 330 d tod = (d, tod - 19800) := by
    simp only [toUTC, secondsPerDay]
    rw [if_neg (by omega), if_neg (by omega)]
    norm_num
  simp [indexDateToken, h]

/-- Witness for `C5_date_token` at the concrete example window. -/
theorem C5_date_token_witness :
    indexDateToken 330 ⟨2024, 7, 3⟩ 79200 = isoZ ⟨2024, 7, 3⟩ (79200 - 19800) :=
  (C5_date_token ⟨2024, 7, 3⟩ 79200).2.2 (by decide) (by decide)

/-- C5 counterexample: even when the CLI runs exactly at the window's local
start (22:00 IST on 2024-07-03), the token it sends is not the UTC
rendering the claim requires. -/
theorem C5_counterexample :
    finderDateToken ⟨2024, 7, 3⟩ 79200 ≠ "2024-07-03T16:30:00.000000Z" := by
  decide

/-- C6.  Corrected: each variant probes exactly one envelope shape, not
both.  The chat-bot reads the nested shape `data["data"]["activities"]`,
treating an absent `"data"` object or absent `"activities"` list as zero
results, but raises (`AttributeError`, uncaught by its
`except (RequestException, JSONDecodeError)`) when `"data"` holds the
top-level-list shape.  The CLI reads only the top-level shape
`data["data"]` and treats an absent `"data"` key as a failure — an error
message that aborts the search — not as zero results. -/
theorem C6_envelope (fs fs2 : List (String × Js)) (l : List Js) :
    (lookupKey "data" fs = none → indexExtract (.obj fs) = .ok []) ∧
    (lookupKey "data" fs = some (.obj fs2) → lookupKey "activities" fs2 = none →
      indexExtract (.obj fs) = .ok []) ∧
    (lookupKey "data" fs = some (.obj fs2) → lookupKey "activities" fs2 = some (.arr l) →
      indexExtract (.obj fs) = .ok l) ∧
    (lookupKey "data" fs = some (.arr l) →
      indexExtract (.obj fs) = .error "AttributeError: data value is not a dict") ∧
    (isNumOne (lookupKey "requestStatus" fs) = true →
      lookupKey "data" fs = some (.arr l) → finderExtract (.obj fs) = .ok l) ∧
    (lookupKey "data" fs = none →
      finderExtract (.obj fs) = .error "Failed to get valid response from Playo API") := by
  refine ⟨fun h => ?_, fun h h2 => ?_, fun h h2 => ?_, fun h => ?_,
    fun h h2 => ?_, fun h => ?_⟩
  · simp [indexExtract, lookupKey, h]
  · simp [indexExtract, lookupKey, h, h2]
  · simp [indexExtract, lookupKey, h, h2]
  · simp [indexExtract, lookupKey, h]
  · simp [finderExtract, lookupKey, h, h2]
  · simp [finderExtract, lookupKey, h]

/-- Witness for `C6_envelope`: a nested envelope with an empty activities
list yields zero chat-bot results. -/
theorem C6_envelope_witness :
    indexExtract (.obj [("data", .obj [("activities", .arr [])])]) = .ok [] :=
  (C6_envelope [("data", Js.obj [("activities", Js.arr [])])]
    [("activities", Js.arr [])] []).2.2.1 rfl rfl

/-- C6 counterexample: an envelope with `requestStatus = 1` but no
activity list makes the CLI fail with an error message — the claim said an
absent list yields zero results in every variant. -/
theorem C6_counterexample :
    finderExtract (.obj [("requestStatus", Js.num 1)]) =
      .error "Failed to get valid response from Playo API" := rfl

/-- C9.  Corrected: both variants produce a distinguished non-empty
sentinel on an empty aggregation, but only the chat-bot's names the
searched window and date (they occur verbatim inside its message); the
CLI's sentinel is the fixed string `No courts found matching your
criteria`, which names neither. -/
theorem C9_no_results_sentinel (dateStr startStr endStr : String)
    (renderI : List IndexVenueSlot → String) (renderF : List FinderVenueSlot → String) :
    indexResultMessage dateStr startStr endStr renderI [] =
      indexNoResultsMsg dateStr startStr endStr ∧
    dateStr.data <:+: (indexNoResultsMsg dateStr startStr endStr).data ∧
    startStr.data <:+: (indexNoResultsMsg dateStr startStr endStr).data ∧
    endStr.data <:+: (indexNoResultsMsg dateStr startStr endStr).data ∧
    indexNoResultsMsg dateStr startStr endStr ≠ "" ∧
    finderResultMessage renderF [] = finderNoResultsMsg ∧
    finderNoResultsMsg ≠ "" := by
  refine ⟨rfl, ?_, ?_, ?_, ?_, rfl, by decide⟩
  · exact ⟨("No courts found for " : String).data,
      (" between " ++ startStr ++ " and " ++ endStr ++ "." : String).data,
      by simp [indexNoResultsMsg]⟩
  · exact ⟨("No courts found for " ++ dateStr ++ " between " : String).data,
      (" and " ++ endStr ++ "." : String).data, by simp [indexNoResultsMsg]⟩
  · exact ⟨("No courts found for " ++ dateStr ++ " between " ++ startStr ++ " and " :
      String).data, ("." : String).data, by simp [indexNoResultsMsg]⟩
  · intro h
    have h20 : ("No courts found for " : String).length = 20 := rfl
    have h2 := congrArg String.length h
    simp [indexNoResultsMsg] at h2
    omega

/-- C9 counterexample: for the window 19:00-20:00 on 2024-07-03, neither
the window times nor the date occur in the CLI's sentinel. -/
theorem C9_counterexample :
    ¬ (("19:00" : String).data <:+: finderNoResultsMsg.data) ∧
    ¬ (("2024-07-03" : String).data <:+: finderNoResultsMsg.data) := by
  decide

/-- C8.  Confirmed: the haversine distance is zero on identical coordinate
pairs and symmetric in its two coordinate pairs. -/
theorem C8_haversine (a1 o1 a2 o2 : ℝ) :
    calculate_haversine_distance a1 o1 a1 o1 = 0 ∧
    calculate_haversine_distance a1 o1 a2 o2 = calculate_haversine_distance a2 o2 a1 o1 := by
  constructor
  · simp only [calculate_haversine_distance]
    norm_num [atan2, Real.sqrt_one, Real.arctan_zero]
  · simp only [calculate_haversine_distance]
    have h1 : Real.sin ((radiansOf a2 - radiansOf a1) / 2) ^ 2
        = Real.sin ((radiansOf a1 - radiansOf a2) / 2) ^ 2 := by
      rw [show (radiansOf a2 - radiansOf a1) / 2
          = -((radiansOf a1 - radiansOf a2) / 2) by ring, Real.sin_neg, neg_sq]
    have h2 : Real.sin ((radiansOf o2 - radiansOf o1) / 2) ^ 2
        = Real.sin ((radiansOf o1 - radiansOf o2) / 2) ^ 2 := by
      rw [show (radiansOf o2 - radiansOf o1) / 2
          = -((radiansOf o1 - radiansOf o2) / 2) by ring, Real.sin_neg, neg_sq]
    have ha : Real.sin ((radiansOf a2 - radiansOf a1) / 2) ^ 2 +
        Real.cos (radiansOf a1) * Real.cos (radiansOf a2) *
          Real.sin ((radiansOf o2 - radiansOf o1) / 2) ^ 2
        = Real.sin ((radiansOf a1 - radiansOf a2) / 2) ^ 2 +
          Real.cos (radiansOf a2) * Real.cos (radiansOf a1) *
            Real.sin ((radiansOf o1 - radiansOf o2) / 2) ^ 2 := by
      rw [h1, h2]; ring
    rw [ha]

theorem minStationDist_nil (vlat vlng : ℝ) : minStationDist vlat vlng [] = ⊤ := rfl

theorem minStationDist_cons (vlat vlng : ℝ) (st : Station) (rest : List Station) :
    minStationDist vlat vlng (st :: rest) =
      min (stationDist vlat vlng st : EReal) (minStationDist vlat vlng rest) := rfl

theorem minStationDist_le_of_mem (vlat vlng : ℝ) :
    ∀ (ss : List Station), ∀ u ∈ ss,
      minStationDist vlat vlng ss ≤ (stationDist vlat vlng u : EReal) := by
  intro ss
  induction ss with
  | nil => intro u hu; simp at hu
  | cons st rest ih =>
    intro u hu
    rw [minStationDist_cons]
    rcases List.mem_cons.mp hu with h | h
    · subst h; exact min_le_left _ _
    · exact le_trans (min_le_right _ _) (ih u h)

/-- Full characterization of the scan loop: its running minimum is the
minimum of the accumulator and every station distance; when nothing
strictly improves the accumulator it is returned unchanged; and otherwise
the winner is the first station attaining the list minimum. -/
theorem nearestLoop_spec (vlat vlng : ℝ) :
    ∀ (ss : List Station) (n0 : Option String) (m0 : EReal),
      (nearestLoop vlat vlng ss (n0, m0)).2 = min m0 (minStationDist vlat vlng ss) ∧
      (m0 ≤ minStationDist vlat vlng ss → nearestLoop vlat vlng ss (n0, m0) = (n0, m0)) ∧
      (minStationDist vlat vlng ss < m0 →
        ∃ pre st post, ss = pre ++ st :: post ∧
          (stationDist vlat vlng st : EReal) = minStationDist vlat vlng ss ∧
          (∀ u ∈ pre, minStationDist vlat vlng ss < (stationDist vlat vlng u : EReal)) ∧
          (nearestLoop vlat vlng ss (n0, m0)).1 = some st.name) := by
  intro ss
  induction ss with
  | nil =>
    intro n0 m0
    refine ⟨?_, fun _ => rfl, fun h => absurd h (by simp [minStationDist_nil])⟩
    simp [nearestLoop, minStationDist_nil]
  | cons st rest ih =>
    intro n0 m0
    by_cases hlt : (stationDist vlat vlng st : EReal) < m0
    · have hstep : nearestLoop vlat vlng (st :: rest) (n0, m0)
          = nearestLoop vlat vlng rest (some st.name, (stationDist vlat vlng st : EReal)) := by
        simp [nearestLoop, hlt]
      refine ⟨?_, fun hm => ?_, fun _ => ?_⟩
      · rw [hstep, (ih (some st.name) (stationDist vlat vlng st : EReal)).1,
          minStationDist_cons]
        exact (min_eq_right (le_of_lt (lt_of_le_of_lt (min_le_left _ _) hlt))).symm
      · rw [minStationDist_cons] at hm
        exact absurd hlt (not_lt.mpr (le_trans hm (min_le_left _ _)))
      · by_cases hM : minStationDist vlat vlng rest < (stationDist vlat vlng st : EReal)
        · obtain ⟨pre, st', post, hsplit, hd, hpre, hres⟩ :=
            (ih (some st.name) (stationDist vlat vlng st : EReal)).2.2 hM
          refine ⟨st :: pre, st', post, by rw [hsplit]; rfl, ?_, ?_, ?_⟩
          · rw [minStationDist_cons, min_eq_right (le_of_lt hM)]
            exact hd
          · intro u hu
            rw [minStationDist_cons, min_eq_right (le_of_lt hM)]
            rcases List.mem_cons.mp hu with h | h
            · subst h; exact hM
            · exact hpre u h
          · rw [hstep]; exact hres
        · have hM' : (stationDist vlat vlng st : EReal) ≤ minStationDist vlat vlng rest :=
            not_lt.mp hM
          have hloop := (ih (some st.name) (stationDist vlat vlng st : EReal)).2.1 hM'
          refine ⟨[], st, rest, rfl, ?_, by simp, ?_⟩
          · rw [minStationDist_cons, min_eq_left hM']
          · rw [hstep, hloop]
    · have hle : m0 ≤ (stationDist vlat vlng st : EReal) := not_lt.mp hlt
      have hstep : nearestLoop vlat vlng (st :: rest) (n0, m0)
          = nearestLoop vlat vlng rest (n0, m0) := by
        simp [nearestLoop, hlt]
      refine ⟨?_, fun hm => ?_, fun hmin => ?_⟩
      · rw [hstep, (ih n0 m0).1, minStationDist_cons, ← min_assoc, min_eq_left hle]
      · rw [minStationDist_cons] at hm
        rw [hstep]
        exact (ih n0 m0).2.1 (le_trans hm (min_le_right _ _))
      · rw [minStationDist_cons] at hmin
        rcases min_lt_iff.mp hmin with h | h
        · exact absurd h (not_lt.mpr hle)
        · have hMd : minStationDist vlat vlng rest ≤ (stationDist vlat vlng st : EReal) :=
            le_of_lt (lt_of_lt_of_le h hle)
          obtain ⟨pre, st', post, hsplit, hd, hpre, hres⟩ := (ih n0 m0).2.2 h
          refine ⟨st :: pre, st', post, by rw [hsplit]; rfl, ?_, ?_, ?_⟩
          · rw [minStationDist_cons, min_eq_right hMd]
            exact hd
          · intro u hu
            rw [minStationDist_cons, min_eq_right hMd]
            rcases List.mem_cons.mp hu with h2 | h2
            · subst h2; exact lt_of_lt_of_le h hle
            · exact hpre u h2
          · rw [hstep]; exact hres

/-- C7.  Confirmed: on an empty station set the nearest-station query
returns `(None, float('inf'))`; otherwise it returns a station whose
haversine distance to the query point is minimal over the whole list, the
tie going to the first such station in load order (every station strictly
ahead of the winner is strictly farther).  The embedding is a pure function
of the station list, which is therefore never mutated. -/
theorem C7_nearest_station (vlat vlng : ℝ) (stations : List Station) :
    find_nearest_metro vlat vlng [] = (none, ⊤) ∧
    (stations ≠ [] →
      ∃ pre st post, stations = pre ++ st :: post ∧
        find_nearest_metro vlat vlng stations =
          (some st.name, (stationDist vlat vlng st : EReal)) ∧
        (∀ u ∈ stations,
          (stationDist vlat vlng st : EReal) ≤ (stationDist vlat vlng u : EReal)) ∧
        (∀ u ∈ pre,
          (stationDist vlat vlng st : EReal) < (stationDist vlat vlng u : EReal))) := by
  refine ⟨rfl, fun hne => ?_⟩
  have hlt : minStationDist vlat vlng stations < (⊤ : EReal) := by
    cases stations with
    | nil => exact absurd rfl hne
    | cons st rest =>
      rw [minStationDist_cons]
      exact lt_of_le_of_lt (min_le_left _ _) (EReal.coe_lt_top _)
  obtain ⟨pre, st, post, hsplit, hd, hpre, hres⟩ :=
    (nearestLoop_spec vlat vlng stations none ⊤).2.2 hlt
  have hEmpty : stations.isEmpty = false := by
    cases stations with
    | nil => exact absurd rfl hne
    | cons st rest => rfl
  have hfnm : find_nearest_metro vlat vlng stations
      = nearestLoop vlat vlng stations (none, ⊤) := by
    simp [find_nearest_metro, hEmpty]
  have h2 : (nearestLoop vlat vlng stations (none, ⊤)).2
      = minStationDist vlat vlng stations := by
    rw [(nearestLoop_spec vlat vlng stations none ⊤).1]
    exact min_eq_right le_top
  refine ⟨pre, st, post, hsplit, ?_, ?_, ?_⟩
  · rw [hfnm]
    exact Prod.ext hres (h2.trans hd.symm)
  · intro u hu
    rw [hd]
    exact minStationDist_le_of_mem vlat vlng stations u hu
  · intro u hu
    rw [hd]
    exact hpre u hu

/-- Witness for `C7_nearest_station` on a one-station list. -/
theorem C7_nearest_station_witness :
    ∃ pre st post, ([⟨"MG Road", 12, 77⟩] : List Station) = pre ++ st :: post ∧
      find_nearest_metro 0 0 [⟨"MG Road", 12, 77⟩] =
        (some st.name, (stationDist 0 0 st : EReal)) ∧
      (∀ u ∈ ([⟨"MG Road", 12, 77⟩] : List Station),
        (stationDist 0 0 st : EReal) ≤ (stationDist 0 0 u : EReal)) ∧
      (∀ u ∈ pre, (stationDist 0 0 st : EReal) < (stationDist 0 0 u : EReal)) :=
  (C7_nearest_station 0 0 [⟨"MG Road", 12, 77⟩]).2 (by simp)

theorem lookupKey_updateKey_self {κ β : Type} [DecidableEq κ] (k : κ) (f : β → β) :
    ∀ l : List (κ × β), lookupKey k (updateKey k f l) = (lookupKey k l).map f := by
  intro l
  induction l with
  | nil => rfl
  | cons p rest ih =>
    obtain ⟨k1, v⟩ := p
    by_cases h : k1 = k
    · simp [updateKey, lookupKey, h]
    · simp [updateKey, lookupKey, h, ih]

theorem lookupKey_updateKey_ne {κ β : Type} [DecidableEq κ] {k k0 : κ} (h : k ≠ k0)
    (f : β → β) : ∀ l : List (κ × β), lookupKey k (updateKey k0 f l) = lookupKey k l := by
  intro l
  induction l with
  | nil => rfl
  | cons p rest ih =>
    obtain ⟨k1, v⟩ := p
    by_cases h1 : k1 = k
    · have h0 : ¬ (k1 = k0) := by rw [h1]; exact h
      simp [updateKey, lookupKey, h0, h1, h]
    · by_cases h0 : k1 = k0
      · have h2 : ¬ (k0 = k) := fun hh => h hh.symm
        simp [updateKey, lookupKey, h0, h1, h2, ih]
      · simp [updateKey, lookupKey, h0, h1, ih]

theorem lookupKey_append_of_none {κ β : Type} [DecidableEq κ] (k : κ) :
    ∀ (l1 l2 : List (κ × β)), lookupKey k l1 = none →
      lookupKey k (l1 ++ l2) = lookupKey k l2 := by
  intro l1
  induction l1 with
  | nil => intro l2 _; rfl
  | cons p rest ih =>
    intro l2 h
    obtain ⟨k1, v⟩ := p
    by_cases h1 : k1 = k
    · simp [lookupKey, h1] at h
    · simp only [lookupKey, h1, if_false, List.cons_append] at h ⊢
      exact ih l2 h

theorem lookupKey_append_of_some {κ β : Type} [DecidableEq κ] (k : κ) (v : β) :
    ∀ (l1 l2 : List (κ × β)), lookupKey k l1 = some v →
      lookupKey k (l1 ++ l2) = some v := by
  intro l1
  induction l1 with
  | nil => intro l2 h; simp [lookupKey] at h
  | cons p rest ih =>
    intro l2 h
    obtain ⟨k1, w⟩ := p
    by_cases h1 : k1 = k
    · simp only [lookupKey, h1, if_true, if_pos] at h ⊢
      exact h
    · simp only [lookupKey, h1, if_false, List.cons_append] at h ⊢
      exact ih l2 h

/-- The value the chat-bot's dict holds at a key, as a function of the value
held before the scanned records and of the records matching the key:
a pre-existing slot just gains the number of matches; otherwise the first
match materializes the slot and later matches are counted. -/
noncomputable def aggSpec (stations : List Station) (off : Int)
    (prev : Option IndexVenueSlot) (matching : List RawActivity) :
    Option IndexVenueSlot :=
  match prev, matching with
  | some s, ms => some { s with court_count := s.court_count + ms.length }
  | none, [] => none
  | none, m :: ms => some { mkIndexSlot stations off m with court_count := ms.length + 1 }

theorem aggSpec_nil (stations : List Station) (off : Int)
    (prev : Option IndexVenueSlot) : aggSpec stations off prev [] = prev := by
  cases prev <;> simp [aggSpec]

theorem aggSpec_bump (stations : List Station) (off : Int) (s : IndexVenueSlot)
    (r : RawActivity) (ms : List RawActivity) :
    aggSpec stations off (some (bumpIndexCount s)) ms
      = aggSpec stations off (some s) (r :: ms) := by
  simp [aggSpec, bumpIndexCount, Nat.add_assoc, Nat.add_comm, Nat.add_left_comm]

theorem aggSpec_bump_mk (stations : List Station) (off : Int) (r : RawActivity)
    (ms : List RawActivity) :
    aggSpec stations off (some (bumpIndexCount (mkIndexSlot stations off r))) ms
      = aggSpec stations off none (r :: ms) := by
  have hc : (mkIndexSlot stations off r).court_count = 0 := rfl
  simp [aggSpec, bumpIndexCount, hc, Nat.add_comm]

/-- Invariant of the chat-bot's aggregation loop, generalized over the
accumulator dict. -/
theorem indexAgg_loop (stations : List Station) (off ds de : Int) :
    ∀ (rs : List RawActivity) (acc : List ((String × Int) × IndexVenueSlot))
      (k : String × Int),
      (∀ r ∈ rs, (indexKeyOf off ds de r).isSome → r.venueName.isSome) →
      lookupKey k (rs.foldl (indexStep stations off ds de) acc)
        = aggSpec stations off (lookupKey k acc)
            (rs.filter (fun x => decide (indexKeyOf off ds de x = some k))) := by
  intro rs
  induction rs with
  | nil =>
    intro acc k _
    rw [List.foldl_nil, List.filter_nil, aggSpec_nil]
  | cons r rs ih =>
    intro acc k hvn
    have hvn' : ∀ x ∈ rs, (indexKeyOf off ds de x).isSome → x.venueName.isSome :=
      fun x hx => hvn x (List.mem_cons_of_mem _ hx)
    rw [List.foldl_cons, ih (indexStep stations off ds de acc r) k hvn']
    cases hk : indexKeyOf off ds de r with
    | none =>
      have hstep : indexStep stations off ds de acc r = acc := by
        simp [indexStep, hk]
      have hfil : (r :: rs).filter (fun x => decide (indexKeyOf off ds de x = some k))
          = rs.filter (fun x => decide (indexKeyOf off ds de x = some k)) := by
        simp [List.filter_cons, hk]
      rw [hstep, hfil]
    | some k0 =>
      by_cases hkk : k0 = k
      · subst hkk
        have hfil : (r :: rs).filter (fun x => decide (indexKeyOf off ds de x = some k0))
            = r :: rs.filter (fun x => decide (indexKeyOf off ds de x = some k0)) := by
          simp [List.filter_cons, hk]
        rw [hfil]
        cases hl : lookupKey k0 acc with
        | some s =>
          have hstep : indexStep stations off ds de acc r
              = updateKey k0 bumpIndexCount acc := by
            simp [indexStep, hk, hl]
          rw [hstep, lookupKey_updateKey_self, hl]
          exact aggSpec_bump stations off s r _
        | none =>
          obtain ⟨vn, hv⟩ := Option.isSome_iff_exists.mp
            (hvn r (List.mem_cons_self r rs) (by rw [hk]; rfl))
          have hstep : indexStep stations off ds de acc r
              = updateKey k0 bumpIndexCount (acc ++ [(k0, mkIndexSlot stations off r)]) := by
            simp [indexStep, hk, hl, hv]
          have happ : lookupKey k0 (acc ++ [(k0, mkIndexSlot stations off r)])
              = some (mkIndexSlot stations off r) := by
            rw [lookupKey_append_of_none k0 acc _ hl]
            simp [lookupKey]
          rw [hstep, lookupKey_updateKey_self, happ]
          exact aggSpec_bump_mk stations off r _
      · have hkk' : k ≠ k0 := fun hh => hkk hh.symm
        have hfil : (r :: rs).filter (fun x => decide (indexKeyOf off ds de x = some k))
            = rs.filter (fun x => decide (indexKeyOf off ds de x = some k)) := by
          simp [List.filter_cons, hk, hkk]
        have hstep : lookupKey k (indexStep stations off ds de acc r) = lookupKey k acc := by
          cases hl : lookupKey k0 acc with
          | some s =>
            have : indexStep stations off ds de acc r = updateKey k0 bumpIndexCount acc := by
              simp [indexStep, hk, hl]
            rw [this, lookupKey_updateKey_ne hkk']
          | none =>
            cases hv : r.venueName with
            | none =>
              have : indexStep stations off ds de acc r = acc := by
                simp [indexStep, hk, hl, hv]
              rw [this]
            | some vn =>
              have : indexStep stations off ds de acc r
                  = updateKey k0 bumpIndexCount
                      (acc ++ [(k0, mkIndexSlot stations off r)]) := by
                simp [indexStep, hk, hl, hv]
              rw [this, lookupKey_updateKey_ne hkk']
              cases hlk : lookupKey k acc with
              | some v => rw [lookupKey_append_of_some k v acc _ hlk]
              | none =>
                rw [lookupKey_append_of_none k acc _ hlk]
                simp [lookupKey, hkk]
        rw [hstep, hfil]

/-- A second accepted record for venue `V1` whose raw start string carries
seconds `:30`, so it parses to instant `48630` — the same minute-rounded
local start (19:00) as `recJ0` but a different raw string. -/
def recA2 : RawActivity :=
  { recJ0 with
    id := some "a2"
    startTime := some 48630
    startTimeRaw := some "1970-01-01T13:30:30+00:00" }

/-- C3.  Corrected: the described aggregation is the chat-bot's.  There,
the dict value at each key `(venueId, minute-rounded local start)` is
materialized from the first accepted record with that key — all fields
taken from it — and its `courtCount` equals the total number of accepted
records with that key (hence is at least 1); this holds provided accepted
records carry a `venueName` (a first-seen record without one is skipped by
the per-record `except`).  The CLI instead groups by the raw
`(venueId, startTime, endTime)` strings, so records sharing a minute but
differing in raw strings are not merged (see the counterexample). -/
theorem C3_venue_aggregation (stations : List Station) (off ds de : Int)
    (rs : List RawActivity) (k : String × Int)
    (hvn : ∀ r ∈ rs, (indexKeyOf off ds de r).isSome → r.venueName.isSome) :
    lookupKey k (indexAgg stations off ds de rs) =
      match rs.filter (fun x => decide (indexKeyOf off ds de x = some k)) with
      | [] => none
      | r :: rest =>
        some { mkIndexSlot stations off r with court_count := rest.length + 1 } := by
  rw [indexAgg, indexAgg_loop stations off ds de rs [] k hvn]
  cases rs.filter (fun x => decide (indexKeyOf off ds de x = some k)) with
  | nil => rfl
  | cons r rest => rfl

/-- Witness for `C3_venue_aggregation`: two accepted records for venue `V1`
sharing the minute-rounded local start 19:00 (minute `1140`) aggregate in
the chat-bot into a single slot with `courtCount = 2`, its fields from the
first record. -/
theorem C3_venue_aggregation_witness :
    lookupKey ("V1", 1140) (indexAgg [] 330 68400 72000 [recJ0, recA2])
      = some { mkIndexSlot [] 330 recJ0 with court_count := 2 } := by
  rw [C3_venue_aggregation [] 330 68400 72000 [recJ0, recA2] ("V1", 1140) (by decide)]
  rfl

/-- C3 counterexample: the same two records — both accepted by the CLI,
same `venueId`, same minute-rounded local start — produce *two* entries in
the CLI's aggregation, because its key uses the raw time strings, which
differ in their seconds. -/
theorem C3_counterexample :
    (finderKeyOf 330 68400 72000 0 recJ0).isSome = true ∧
    (finderKeyOf 330 68400 72000 0 recA2).isSome = true ∧
    recJ0.venueId = recA2.venueId ∧
    localTimeOfDay 330 (recJ0.startTime.getD 0) / 60
      = localTimeOfDay 330 (recA2.startTime.getD 0) / 60 ∧
    (finderAgg [⟨"MG Road", 12, 77⟩] 330 68400 72000 0 [recJ0, recA2]).length = 2 := by
  refine ⟨by decide, by decide, by decide, by decide, ?_⟩
  rfl

/-- C4.  Corrected: both variants sort ascending by distance-to-station with
a stable sort (a sublist of slots with pairwise-equal distances keeps its
input order in the sorted output), but only the chat-bot truncates the
rendered output to the top 10; the CLI renders every sorted slot, one table
row per slot. -/
theorem C4_ranking (slots : List IndexVenueSlot) (fslots : List FinderVenueSlot) :
    (indexRank slots).length ≤ 10 ∧
    List.Pairwise (fun a b => a.distance_to_metro ≤ b.distance_to_metro)
      (indexRank slots) ∧
    (∀ c, c.Sublist slots →
      List.Pairwise (fun a b : IndexVenueSlot =>
        a.distance_to_metro = b.distance_to_metro) c →
      c.Sublist (slots.mergeSort indexLe)) ∧
    List.Pairwise (fun a b => a.distance_to_metro ≤ b.distance_to_metro)
      (finderRank fslots) ∧
    (∀ c, c.Sublist fslots →
      List.Pairwise (fun a b : FinderVenueSlot =>
        a.distance_to_metro = b.distance_to_metro) c →
      c.Sublist (finderRank fslots)) ∧
    (finderRank fslots).length = fslots.length := by
  have htransI : ∀ a b c : IndexVenueSlot,
      indexLe a b = true → indexLe b c = true → indexLe a c = true := by
    intro a b c hab hbc
    simp only [indexLe, decide_eq_true_eq] at hab hbc ⊢
    exact le_trans hab hbc
  have htotalI : ∀ a b : IndexVenueSlot, (indexLe a b || indexLe b a) = true := by
    intro a b
    simp only [indexLe, Bool.or_eq_true, decide_eq_true_eq]
    exact le_total _ _
  have htransF : ∀ a b c : FinderVenueSlot,
      finderLe a b = true → finderLe b c = true → finderLe a c = true := by
    intro a b c hab hbc
    simp only [finderLe, decide_eq_true_eq] at hab hbc ⊢
    exact le_trans hab hbc
  have htotalF : ∀ a b : FinderVenueSlot, (finderLe a b || finderLe b a) = true := by
    intro a b
    simp only [finderLe, Bool.or_eq_true, decide_eq_true_eq]
    exact le_total _ _
  refine ⟨?_, ?_, ?_, ?_, ?_, ?_⟩
  · rw [indexRank, List.length_take]
    exact min_le_left _ _
  · have hs := List.sorted_mergeSort htransI htotalI slots
    have ht : (indexRank slots).Pairwise (fun a b => indexLe a b = true) :=
      List.Pairwise.sublist (List.take_sublist _ _) hs
    exact ht.imp (fun h => by simpa [indexLe, decide_eq_true_eq] using h)
  · intro c hsub hpair
    refine List.sublist_mergeSort htransI htotalI ?_ hsub
    exact hpair.imp (fun h => by simp [indexLe, h])
  · have hs := List.sorted_mergeSort htransF htotalF fslots
    exact hs.imp (fun h => by simpa [finderLe, decide_eq_true_eq] using h)
  · intro c hsub hpair
    refine List.sublist_mergeSort htransF htotalF ?_ hsub
    exact hpair.imp (fun h => by simp [finderLe, h])
  · simp [finderRank]

/-- A concrete CLI slot used to exhibit the missing truncation. -/
def sampleFinderSlot : FinderVenueSlot :=
  { venue_name := "V"
    start := "07:00 PM"
    endStr := "08:00 PM"
    venue_id := some "v"
    nearest_metro := none
    distance_to_metro := ⊤
    court_count := 1 }

/-- Witness for `C4_ranking`: the stability conjunct applied to a
singleton sublist. -/
theorem C4_ranking_witness :
    ([sampleFinderSlot] : List FinderVenueSlot).Sublist (finderRank [sampleFinderSlot]) :=
  (C4_ranking [] [sampleFinderSlot]).2.2.2.2.1 [sampleFinderSlot]
    (List.Sublist.refl _) (by simp)

/-- C4 counterexample: eleven aggregated slots make the CLI render eleven
rows — its output is not truncated to the top 10. -/
theorem C4_counterexample :
    10 < (finderRank (List.replicate 11 sampleFinderSlot)).length := by
  simp [finderRank]

end Goodminton
